import Mathlib

/-!
# FLIP network transaction layer: a verification development

The FLIP (SPDY-precursor) subsystem of this snapshot consists of a frame
codec, a per-exchange stream state machine, a session that multiplexes
streams over one connection, a session pool, and a transaction adapter.
The snapshot carries the subsystem's unit tests
(`net/flip/flip_network_transaction_unittest.cc`) with exact wire bytes and
expected observable results; the implementation files themselves are not in
the snapshot, so the definitions below are modelled from the design
specification, with every byte-level choice pinned by the wire bytes that
the unit tests feed and the results they expect.  Compression is disabled
throughout (the test fixture calls
`FlipFramer::set_enable_compression_default(false)`), so header blocks are
modelled in their uncompressed form.

All multi-byte integers are big-endian.  Bytes are modelled as `Nat`.
-/

namespace Flip

/-- Bytes of a string, one `Nat` per character. -/
def str (s : String) : List Nat := s.data.map Char.toNat

/-! ## Big-endian integer fields -/

/-- Big-endian 16-bit field (2 bytes). -/
def be16 (n : Nat) : List Nat := [n / 256 % 256, n % 256]

/-- Big-endian 24-bit field (3 bytes), used for frame lengths. -/
def be24 (n : Nat) : List Nat := [n / 65536 % 256, n / 256 % 256, n % 256]

/-- Big-endian 32-bit field (4 bytes), used for stream ids and RST status. -/
def be32 (n : Nat) : List Nat :=
  [n / 16777216 % 256, n / 65536 % 256, n / 256 % 256, n % 256]

/-- Read a big-endian 16-bit integer, returning it with the unread tail. -/
def readU16 : List Nat → Option (Nat × List Nat)
  | b1 :: b0 :: rest => some (b1 * 256 + b0, rest)
  | _ => none

/-- Read a big-endian 32-bit integer, returning it with the unread tail. -/
def readU32 : List Nat → Option (Nat × List Nat)
  | b3 :: b2 :: b1 :: b0 :: rest =>
      some (((b3 * 256 + b2) * 256 + b1) * 256 + b0, rest)
  | _ => none

/-- Read exactly `n` raw bytes, returning them with the unread tail. -/
def readBytes (n : Nat) (bs : List Nat) : Option (List Nat × List Nat) :=
  if n ≤ bs.length then some (bs.take n, bs.drop n) else none

theorem readU16_be16 {n : Nat} (h : n < 65536) (rest : List Nat) :
    readU16 (be16 n ++ rest) = some (n, rest) := by
  have h2 : n / 256 < 256 := Nat.div_lt_of_lt_mul h
  simp only [be16, readU16, List.cons_append, List.nil_append,
    Nat.mod_eq_of_lt h2]
  rw [Nat.div_add_mod']

theorem readU32_be32 {n : Nat} (h : n < 4294967296) (rest : List Nat) :
    readU32 (be32 n ++ rest) = some (n, rest) := by
  have h3 : n / 16777216 < 256 := Nat.div_lt_of_lt_mul h
  simp only [be32, readU32, List.cons_append, List.nil_append,
    Nat.mod_eq_of_lt h3]
  have e1 : n / 16777216 * 256 + n / 65536 % 256 = n / 65536 := by
    have : n / 65536 / 256 = n / 16777216 := by
      rw [Nat.div_div_eq_div_mul]
    rw [← this, Nat.div_add_mod']
  have e2 : n / 65536 * 256 + n / 256 % 256 = n / 256 := by
    have : n / 256 / 256 = n / 65536 := by
      rw [Nat.div_div_eq_div_mul]
    rw [← this, Nat.div_add_mod']
  rw [e1, e2, Nat.div_add_mod']

theorem readBytes_append (xs rest : List Nat) :
    readBytes xs.length (xs ++ rest) = some (xs, rest) := by
  simp [readBytes]

/-! ## Header blocks

A header block is an ordered sequence of (name, value) byte-string pairs.
On the wire (uncompressed) it is a 16-bit pair count followed by the pairs,
each a 16-bit length-prefixed name then a 16-bit length-prefixed value.
The 16-bit count and 16-bit lengths are pinned by the test frames: the
`Get` test's SYN_STREAM carries `0xc0 0x00` (priority/unused) then
`0x00 0x03` for its three pairs, and every frame's 24-bit length field
equals `4 + 2 + 2 + Σ (2 + |name| + 2 + |value|)`. -/

/-- An ordered header block: (name, value) byte-string pairs. -/
abbrev HeaderBlock := List (List Nat × List Nat)

/-- Wire size of one name/value pair: two 16-bit length prefixes plus the
name and value bytes. -/
def pairSize (p : List Nat × List Nat) : Nat :=
  2 + p.1.length + 2 + p.2.length

/-- Total wire size of a block's pairs. -/
def pairBytes (hs : HeaderBlock) : Nat := (hs.map pairSize).sum

/-- Modelled from the spec: the missing `FlipFramer` serializes one
name/value pair as 16-bit length-prefixed name then 16-bit length-prefixed
value. -/
def encodePair (p : List Nat × List Nat) : List Nat :=
  be16 p.1.length ++ p.1 ++ be16 p.2.length ++ p.2

/-- Modelled from the spec: the missing `FlipFramer` serializes a header
block as a 16-bit pair count followed by the encoded pairs (compression
disabled). -/
def encodeHeaderBlock (hs : HeaderBlock) : List Nat :=
  be16 hs.length ++ (hs.map encodePair).flatten

/-- Parse up to `n` name/value pairs, threading the unread tail.  A pair
that cannot be read whole ends the parse quietly with the pairs read so
far: the enabled `SynReplyHeaders` test's second reply announces 4 pairs
but carries only 3, and the test expects those 3 header lines, so the
block parser must tolerate a short block. -/
def parsePair (bs : List Nat) : Option ((List Nat × List Nat) × List Nat) := do
  let (nameLen, bs) ← readU16 bs
  let (name, bs) ← readBytes nameLen bs
  let (valueLen, bs) ← readU16 bs
  let (value, bs) ← readBytes valueLen bs
  return ((name, value), bs)

def parsePairs : Nat → List Nat → HeaderBlock × List Nat
  | 0, bs => ([], bs)
  | n + 1, bs =>
    match parsePair bs with
    | none => ([], bs)
    | some (p, bs1) =>
      let (hs, rest) := parsePairs n bs1
      (p :: hs, rest)

/-- Modelled from the spec: the missing `FlipFramer::ParseHeaderBlock`
reads a 16-bit pair count then up to that many pairs; it fails only when
the count itself cannot be read, and ignores trailing bytes. -/
def parseHeaderBlock (bs : List Nat) : Option HeaderBlock :=
  match readU16 bs with
  | none => none
  | some (n, bs) => some (parsePairs n bs).1

theorem parsePair_encode (p : List Nat × List Nat) (rest : List Nat)
    (h1 : p.1.length < 65536) (h2 : p.2.length < 65536) :
    parsePair (encodePair p ++ rest) = some (p, rest) := by
  simp only [parsePair, encodePair, List.append_assoc, Option.bind_eq_bind]
  rw [readU16_be16 h1]
  simp only [Option.some_bind]
  rw [readBytes_append]
  simp only [Option.some_bind]
  rw [readU16_be16 h2]
  simp only [Option.some_bind]
  rw [readBytes_append]
  rfl

theorem parsePairs_encode (hs : HeaderBlock) (rest : List Nat)
    (hlen : ∀ p ∈ hs, p.1.length < 65536 ∧ p.2.length < 65536) :
    parsePairs hs.length ((hs.map encodePair).flatten ++ rest) =
      (hs, rest) := by
  induction hs with
  | nil => simp [parsePairs]
  | cons p ps ih =>
    have hp := hlen p (List.mem_cons_self p ps)
    have hps : ∀ q ∈ ps, q.1.length < 65536 ∧ q.2.length < 65536 :=
      fun q hq => hlen q (List.mem_cons_of_mem p hq)
    simp only [List.map_cons, List.flatten_cons, List.length_cons,
      List.append_assoc, parsePairs]
    rw [parsePair_encode p _ hp.1 hp.2]
    simp [ih hps]

theorem encodePair_length (p : List Nat × List Nat) :
    (encodePair p).length = pairSize p := by
  simp only [encodePair, pairSize, be16, List.length_append, List.length_cons,
    List.length_nil]

theorem flatten_encodePair_length (hs : HeaderBlock) :
    ((hs.map encodePair).flatten).length = pairBytes hs := by
  induction hs with
  | nil => rfl
  | cons p ps ih =>
    simp only [List.map_cons, List.flatten_cons, List.length_append, ih,
      encodePair_length, pairBytes, List.sum_cons]

/-- Size of an encoded block: the 2-byte count plus the pairs. -/
theorem encodeHeaderBlock_length (hs : HeaderBlock) :
    (encodeHeaderBlock hs).length = 2 + pairBytes hs := by
  simp only [encodeHeaderBlock, List.length_append, be16, List.length_cons,
    List.length_nil, flatten_encodePair_length]

/-- A block the 16-bit wire format can carry: pair count and every name and
value length fit in 16 bits. -/
def ValidBlock (hs : HeaderBlock) : Prop :=
  hs.length < 65536 ∧ ∀ p ∈ hs, p.1.length < 65536 ∧ p.2.length < 65536

instance (hs : HeaderBlock) : Decidable (ValidBlock hs) := by
  unfold ValidBlock; infer_instance

theorem parseHeaderBlock_encodeHeaderBlock {hs : HeaderBlock}
    (h : ValidBlock hs) :
    parseHeaderBlock (encodeHeaderBlock hs) = some hs := by
  simp only [parseHeaderBlock, encodeHeaderBlock]
  rw [readU16_be16 h.1]
  have := parsePairs_encode hs [] h.2
  rw [List.append_nil] at this
  simp [this]

/-! ## Multi-value unfolding

A single logical header value may carry several sub-values separated by
embedded NUL bytes; these unfold into repeated header lines in order.  A
comma is not a separator.  Pinned by the `SynReplyHeaders` test cases:
`cookie: val1\0val2` becomes two `cookie` lines while `cookie: val1,val2`
stays one line. -/

/-- Split a value at NUL (byte 0) separators.  Always returns at least one
sub-value; `k` NUL bytes yield `k + 1` sub-values. -/
def splitOnNul : List Nat → List (List Nat)
  | [] => [[]]
  | b :: rest =>
    match splitOnNul rest with
    | [] => [[]]
    | g :: gs => if b = 0 then [] :: g :: gs else (b :: g) :: gs

theorem splitOnNul_ne_nil (v : List Nat) : splitOnNul v ≠ [] := by
  cases v with
  | nil => simp [splitOnNul]
  | cons b rest =>
    simp only [splitOnNul]
    cases splitOnNul rest with
    | nil => simp
    | cons g gs =>
      by_cases hb : b = 0 <;> simp [hb]

theorem splitOnNul_no_nul {v : List Nat} (h : 0 ∉ v) :
    splitOnNul v = [v] := by
  induction v with
  | nil => rfl
  | cons b rest ih =>
    have hb : b ≠ 0 := fun e => h (e ▸ List.mem_cons_self b rest)
    have hr : 0 ∉ rest := fun e => h (List.mem_cons_of_mem b e)
    simp only [splitOnNul, ih hr]
    simp [hb]

theorem splitOnNul_append_nul {v : List Nat} (h : 0 ∉ v) (w : List Nat) :
    splitOnNul (v ++ 0 :: w) = v :: splitOnNul w := by
  induction v with
  | nil =>
    simp only [List.nil_append, splitOnNul]
    cases hw : splitOnNul w with
    | nil => exact absurd hw (splitOnNul_ne_nil w)
    | cons g gs => simp
  | cons b rest ih =>
    have hb : b ≠ 0 := fun e => h (e ▸ List.mem_cons_self b rest)
    have hr : 0 ∉ rest := fun e => h (List.mem_cons_of_mem b e)
    simp only [List.cons_append, splitOnNul, List.append_eq]
    rw [ih hr]
    simp [hb]

/-- Join sub-values with a single NUL byte between them. -/
def nulJoin : List (List Nat) → List Nat
  | [] => []
  | [v] => v
  | v :: vs => v ++ 0 :: nulJoin vs

theorem splitOnNul_nulJoin {parts : List (List Nat)} (hne : parts ≠ [])
    (h : ∀ p ∈ parts, 0 ∉ p) : splitOnNul (nulJoin parts) = parts := by
  induction parts with
  | nil => exact absurd rfl hne
  | cons v vs ih =>
    cases vs with
    | nil =>
      exact splitOnNul_no_nul (h v (List.mem_cons_self v []))
    | cons w ws =>
      have hv : 0 ∉ v := h v (List.mem_cons_self v (w :: ws))
      have hrest : ∀ p ∈ w :: ws, 0 ∉ p :=
        fun p hp => h p (List.mem_cons_of_mem v hp)
      simp only [nulJoin, splitOnNul_append_nul hv,
        ih (by simp) hrest]

/-- Modelled from the spec: the missing `FlipStream::OnReply` turns each
decoded (name, value) pair into one header line per NUL-separated
sub-value, in block order; the pseudo-headers stay in the line list. -/
def unfoldHeaders (hs : HeaderBlock) : HeaderBlock :=
  (hs.map (fun p => (splitOnNul p.2).map (fun v => (p.1, v)))).flatten

theorem unfoldHeaders_append (hs₁ hs₂ : HeaderBlock) :
    unfoldHeaders (hs₁ ++ hs₂) = unfoldHeaders hs₁ ++ unfoldHeaders hs₂ := by
  simp [unfoldHeaders]

/-! ## Frames

Control frame header (8 bytes): `0x80 | version-high`, version-low, 16-bit
type, 8-bit flags, 24-bit payload length.  Data frame header (8 bytes):
31-bit stream id (top bit clear), 8-bit flags, 24-bit payload length.
Pinned by every frame constant in the unit tests. -/

/-- Control frame type codes (from the FLIP protocol declarations). -/
def SYN_STREAM : Nat := 1
def SYN_REPLY : Nat := 2
def RST_STREAM : Nat := 3

/-- FIN flag bit (bit 0 of the flags byte). -/
def FLAG_FIN : Nat := 1

/-- A decoded frame. -/
inductive Frame
  | control (version ftype flags : Nat) (payload : List Nat)
  | data (streamId flags : Nat) (payload : List Nat)
deriving DecidableEq, Repr

/-- Modelled from the spec: the missing `FlipFramer` frame decoder.  Reads
one 8-byte frame header and the payload the 24-bit length field announces;
the control bit (top bit of the first byte) picks control vs data. -/
def parseFrame (bs : List Nat) : Option (Frame × List Nat) :=
  match bs with
  | b0 :: b1 :: b2 :: b3 :: fl :: l2 :: l1 :: l0 :: rest =>
    let len := (l2 * 256 + l1) * 256 + l0
    if 128 ≤ b0 then
      (readBytes len rest).map
        (fun pr => (.control ((b0 - 128) * 256 + b1) (b2 * 256 + b3) fl pr.1,
                    pr.2))
    else
      (readBytes len rest).map
        (fun pr => (.data (((b0 * 256 + b1) * 256 + b2) * 256 + b3) fl pr.1,
                    pr.2))
  | _ => none

/-- Decode as many whole frames as the fuel allows; `none` on a malformed
or truncated tail. -/
def parseFramesAux : Nat → List Nat → Option (List Frame)
  | _, [] => some []
  | 0, _ :: _ => none
  | fuel + 1, bs@(_ :: _) => do
    let (f, rest) ← parseFrame bs
    let fs ← parseFramesAux fuel rest
    return f :: fs

/-- Decode a byte stream into its frame sequence. -/
def parseFrames (bs : List Nat) : Option (List Frame) :=
  parseFramesAux bs.length bs

/-- Modelled from the spec: SYN_REPLY payload = 4-byte stream id (top bit
masked), 2-byte unused field, then the header block.  The 2+2 split of the
four bytes after the id is pinned by the test frames' length fields
(`0x45 = 4 + 2 + 2 + 61` for the `Get` reply) and by the SYN_STREAM bytes
`0xc0 0x00 | 0x00 0x03` where the pair count 3 sits in the last two
bytes. -/
def parseSynReplyPayload (p : List Nat) : Option (Nat × HeaderBlock) := do
  let (sid, p) ← readU32 p
  let (_unused, p) ← readU16 p
  let hs ← parseHeaderBlock p
  return (sid % 2147483648, hs)

/-- Modelled from the spec: RST_STREAM payload = 4-byte stream id (top bit
masked), 4-byte status code. -/
def parseRstPayload (p : List Nat) : Option (Nat × Nat) := do
  let (sid, p) ← readU32 p
  let (status, p) ← readU32 p
  if p.isEmpty then return (sid % 2147483648, status) else none

/-! ## Stream state machine

One logical request/response exchange, fed the frames the session routes
to its stream id. -/

/-- Frame-level events a session delivers to one stream. -/
inductive StreamEvent
  | synReply (headers : HeaderBlock)
  | dataBytes (bytes : List Nat) (fin : Bool)
  | rst (status : Nat)
deriving DecidableEq, Repr

/-- Stream-local error outcomes. -/
inductive FlipError
  | synReplyNotReceived
  | rstError (status : Nat)
  | protocolError
deriving DecidableEq, Repr

/-- Per-stream receive state. -/
structure StreamState where
  responseHeaders : Option HeaderBlock := none
  body : List Nat := []
  closed : Bool := false
  error : Option FlipError := none
deriving DecidableEq, Repr

/-- Modelled from the spec: the missing `FlipStream` receive transitions.
DATA or RST before any SYN_REPLY is the stream-local error
`synReplyNotReceived`; after the error (or close) the stream discards
further frames.  DATA appends to the body in arrival order; its FIN
half-closes.  RST with status 0 after the reply is a clean close (the
passing `Get` test ends each exchange with exactly such a frame and still
expects `OK`); a non-zero status fails the stream. -/
def streamStep (s : StreamState) (e : StreamEvent) : StreamState :=
  if s.error.isSome || s.closed then s
  else
    match e with
    | .synReply hs =>
      match s.responseHeaders with
      | none => { s with responseHeaders := some hs }
      | some _ => { s with error := some .protocolError }
    | .dataBytes b fin =>
      match s.responseHeaders with
      | none => { s with error := some .synReplyNotReceived }
      | some _ => { s with body := s.body ++ b, closed := fin }
    | .rst status =>
      match s.responseHeaders with
      | none => { s with error := some .synReplyNotReceived }
      | some _ =>
        if status = 0 then { s with closed := true }
        else { s with error := some (.rstError status), closed := true }

/-- Run a stream from its initial state over a list of events. -/
def runStream (es : List StreamEvent) : StreamState :=
  es.foldl streamStep {}

/-- An errored or closed stream ignores every further event. -/
theorem streamStep_frozen {s : StreamState}
    (h : (s.error.isSome || s.closed) = true) (e : StreamEvent) :
    streamStep s e = s := by
  simp [streamStep, h]

theorem foldl_streamStep_frozen {s : StreamState}
    (h : (s.error.isSome || s.closed) = true) (es : List StreamEvent) :
    es.foldl streamStep s = s := by
  induction es with
  | nil => rfl
  | cons e es ih => rw [List.foldl_cons, streamStep_frozen h, ih]

/-! ## Session dispatch and the transaction view -/

/-- The stream id a frame addresses, by the same payload reads the
dispatcher performs; `none` for frames that address no stream. -/
def frameStreamId : Frame → Option Nat
  | .control _ t _ payload =>
    if t = SYN_REPLY then (parseSynReplyPayload payload).map Prod.fst
    else if t = RST_STREAM then (parseRstPayload payload).map Prod.fst
    else none
  | .data sid _ _ => some sid

/-- Modelled from the spec: the missing `FlipSession` read loop routes each
decoded frame by stream id to the matching stream; frames for other ids
(or with unparsable payloads) are not delivered to this stream. -/
def frameEvent (sid : Nat) : Frame → Option StreamEvent
  | .control _ t _ payload =>
    if t = SYN_REPLY then
      match parseSynReplyPayload payload with
      | some (id, hs) => if id = sid then some (.synReply hs) else none
      | none => none
    else if t = RST_STREAM then
      match parseRstPayload payload with
      | some (id, status) => if id = sid then some (.rst status) else none
      | none => none
    else none
  | .data id fl payload =>
    if id = sid then some (.dataBytes payload (fl % 2 = 1)) else none

/-- Events one stream sees out of a frame sequence. -/
def framesToEvents (frames : List Frame) (sid : Nat) : List StreamEvent :=
  frames.filterMap (frameEvent sid)

/-- A frame that does not address a stream id produces no event for it. -/
theorem frameEvent_of_other_stream {f : Frame} {sid : Nat}
    (h : frameStreamId f ≠ some sid) : frameEvent sid f = none := by
  cases f with
  | control v t flags payload =>
    simp only [frameStreamId] at h
    simp only [frameEvent]
    by_cases ht : t = SYN_REPLY
    · simp only [ht, if_true] at h ⊢
      cases hp : parseSynReplyPayload payload with
      | none => rfl
      | some pr =>
        obtain ⟨id, hs⟩ := pr
        rw [hp] at h
        have hid : id ≠ sid := by
          intro e
          apply h
          rw [e]
          rfl
        simp [hid]
    · simp only [ht, if_false] at h ⊢
      by_cases hr : t = RST_STREAM
      · simp only [hr, if_true] at h ⊢
        cases hp : parseRstPayload payload with
        | none => rfl
        | some pr =>
          obtain ⟨id, status⟩ := pr
          rw [hp] at h
          have hid : id ≠ sid := by
            intro e
            apply h
            rw [e]
            rfl
          simp [hid]
      · simp [hr]
  | data id flags payload =>
    simp only [frameStreamId, ne_eq, Option.some.injEq] at h
    simp [frameEvent, h]

/-- Dropping another stream's frame leaves this stream's events alone. -/
theorem framesToEvents_cons_other {f : Frame} {sid : Nat}
    (h : frameStreamId f ≠ some sid) (frames : List Frame) :
    framesToEvents (f :: frames) sid = framesToEvents frames sid := by
  simp [framesToEvents, List.filterMap_cons, frameEvent_of_other_stream h]

/-! ## Response status line

Recognized pseudo-headers `status`, `version`, `url` combine into the
response status line; a bare numeric status gets the standard reason
phrase appended (the HTTP layer normalizes `HTTP/1.1 200` to
`HTTP/1.1 200 OK`). -/

/-- First value for a header name among the unfolded lines. -/
def lookupHeader (hs : HeaderBlock) (name : List Nat) : Option (List Nat) :=
  (hs.find? (fun p => p.1 = name)).map Prod.snd

/-- Decimal value of an ASCII digit string. -/
def parseDecimal (bs : List Nat) : Nat :=
  bs.foldl (fun acc b => acc * 10 + (b - 48)) 0

/-- Modelled from the spec: the HTTP layer's standard reason phrase for a
status code, used to complete a bare numeric status. -/
def GetHttpReasonPhrase (code : Nat) : String :=
  if code = 200 then "OK"
  else if code = 301 then "Moved Permanently"
  else if code = 302 then "Found"
  else if code = 404 then "Not Found"
  else if code = 500 then "Internal Server Error"
  else ""

/-- Modelled from the spec: the missing `FlipStream` response assembly
combines the `version` and `status` pseudo-headers into the status line; a
status with no reason phrase (no space) gets the standard one
appended. -/
def statusLineOf (hs : HeaderBlock) : Option (List Nat) := do
  let v ← lookupHeader hs (str "version")
  let s ← lookupHeader hs (str "status")
  if s.contains 32 then return v ++ str " " ++ s
  else return v ++ str " " ++ s ++ str " " ++ str (GetHttpReasonPhrase (parseDecimal s))

/-- Result codes a transaction's callback can deliver. -/
inductive NetResult
  | ok
  | ioPending
  | errSynReplyNotReceived
  | errAborted (status : Nat)
  | errProtocol
  | errIncomplete
deriving DecidableEq, Repr

/-- Map a finished stream state to the transaction's result code. -/
def streamResult (s : StreamState) : NetResult :=
  match s.error with
  | some .synReplyNotReceived => .errSynReplyNotReceived
  | some (.rstError st) => .errAborted st
  | some .protocolError => .errProtocol
  | none =>
    match s.responseHeaders with
    | some _ => if s.closed then .ok else .ioPending
    | none => .errIncomplete

/-- What the unit tests' `TransactionHelper` observes: the callback's
result, the status line, the enumerated header lines, and the body. -/
structure TransactionOut where
  rv : NetResult
  status_line : List Nat
  header_lines : HeaderBlock
  response_data : List Nat
deriving DecidableEq, Repr

/-- Modelled from the spec: one transaction over the serialized read
bytes — decode frames, route those for this stream id, run the stream
machine, then expose the status line, the unfolded header lines and the
accumulated body. -/
def runTransaction (bytes : List Nat) (sid : Nat) : Option TransactionOut := do
  let frames ← parseFrames bytes
  let s := runStream (framesToEvents frames sid)
  let lines := unfoldHeaders (s.responseHeaders.getD [])
  return { rv := streamResult s,
           status_line := (statusLineOf lines).getD [],
           header_lines := lines,
           response_data := s.body }

/-! ## Request side: SYN_STREAM and DATA emission -/

/-- Serialize a control frame: control bit + version 1, 16-bit type, 8-bit
flags, 24-bit payload length, payload. -/
def controlFrameBytes (ftype flags : Nat) (payload : List Nat) : List Nat :=
  [128, 1] ++ be16 ftype ++ [flags] ++ be24 payload.length ++ payload

/-- Serialize a data frame: 31-bit stream id, 8-bit flags, 24-bit payload
length, payload. -/
def dataFrameBytes (sid flags : Nat) (payload : List Nat) : List Nat :=
  be32 sid ++ [flags] ++ be24 payload.length ++ payload

/-- The slice of `HttpRequestInfo` this layer reads: method, url, version
and the upload body as a chunk list (empty list = no body). -/
structure HttpRequestInfo where
  method : List Nat
  url : List Nat
  version : List Nat
  uploadChunks : List (List Nat)
deriving DecidableEq, Repr

/-- Modelled from the spec: the missing `FlipStreamParser` builds the
SYN_STREAM header block from method/url/version. -/
def requestHeaderBlock (r : HttpRequestInfo) : HeaderBlock :=
  [(str "method", r.method), (str "url", r.url), (str "version", r.version)]

/-- Modelled from the spec: the SYN_STREAM frame a request emits — stream
id, priority/unused bytes, header block; the FIN flag is set exactly when
the request has no body.  The priority bytes `0xc0 0x00` are pinned by the
test's expected writes. -/
def synStreamFrameBytes (sid : Nat) (r : HttpRequestInfo) : List Nat :=
  controlFrameBytes SYN_STREAM (if r.uploadChunks.isEmpty then FLAG_FIN else 0)
    (be32 sid ++ [192, 0] ++ encodeHeaderBlock (requestHeaderBlock r))

/-- Modelled from the spec: body chunks stream out as DATA frames, the
last one FIN-marked. -/
def dataFramesBytes (sid : Nat) : List (List Nat) → List (List Nat)
  | [] => []
  | [c] => [dataFrameBytes sid FLAG_FIN c]
  | c :: c2 :: cs => dataFrameBytes sid 0 c :: dataFramesBytes sid (c2 :: cs)

/-- Modelled from the spec: `SendRequest` serializes the SYN_STREAM (and
any body DATA frames) onto the write queue and reports pending I/O; the
real result only ever arrives later through the callback. -/
def sendRequest (sid : Nat) (r : HttpRequestInfo) :
    NetResult × List (List Nat) :=
  (.ioPending, synStreamFrameBytes sid r :: dataFramesBytes sid r.uploadChunks)

/-- Flags byte of a serialized frame (offset 4 in both frame kinds). -/
def frameFlagsByte (bs : List Nat) : Nat := bs.getD 4 0

theorem dataFramesBytes_last_fin (sid : Nat) (c : List Nat)
    (cs : List (List Nat)) :
    frameFlagsByte ((dataFramesBytes sid (c :: cs)).getLastD []) = FLAG_FIN := by
  induction cs generalizing c with
  | nil =>
    simp [dataFramesBytes, dataFrameBytes, frameFlagsByte, be32]
  | cons c2 cs ih =>
    simp only [dataFramesBytes]
    rw [List.getLastD_cons]
    have hne : dataFramesBytes sid (c2 :: cs) ≠ [] := by
      cases cs <;> simp [dataFramesBytes]
    cases hl : (dataFramesBytes sid (c2 :: cs)).getLast? with
    | none => exact absurd (List.getLast?_eq_none_iff.mp hl) hne
    | some x =>
      have hx := ih c2
      rw [List.getLastD_eq_getLast?, hl] at hx
      rw [List.getLastD_eq_getLast?, hl]
      simpa using hx

/-! ## Session pool and stream id allocation -/

/-- An endpoint key (host and port). -/
abbrev Endpoint := List Nat × Nat

/-- Modelled from the spec: the missing `FlipSession` slice the pool and
id allocator touch — its endpoint, its creation number (distinguishing
instances), and the next client-initiated stream id, starting at 1. -/
structure FlipSession where
  endpoint : Endpoint
  instanceId : Nat
  nextStreamId : Nat
deriving DecidableEq, Repr

/-- A fresh session for an endpoint: client stream ids start at 1. -/
def newSession (ep : Endpoint) (inst : Nat) : FlipSession :=
  { endpoint := ep, instanceId := inst, nextStreamId := 1 }

/-- Modelled from the spec: `CreateStream` hands out the next odd stream
id and advances the allocator by 2; ids are never reused. -/
def createStream (s : FlipSession) : Nat × FlipSession :=
  (s.nextStreamId, { s with nextStreamId := s.nextStreamId + 2 })

/-- The session after `k` stream creations. -/
def createStreams : Nat → FlipSession → FlipSession
  | 0, s => s
  | k + 1, s => createStreams k (createStream s).2

/-- The stream id the `(k+1)`-th creation on a fresh session allocates. -/
def allocatedId (ep : Endpoint) (inst k : Nat) : Nat :=
  (createStreams k (newSession ep inst)).nextStreamId

theorem createStreams_nextStreamId (k : Nat) (s : FlipSession) :
    (createStreams k s).nextStreamId = s.nextStreamId + 2 * k := by
  induction k generalizing s with
  | zero => simp [createStreams]
  | succ k ih =>
    simp only [createStreams, createStream, ih]
    omega

/-- Modelled from the spec: the missing `FlipSessionPool` maps an endpoint
to at most one live session; `Get` returns the existing one or registers a
fresh one. -/
structure PoolState where
  sessions : List (Endpoint × FlipSession)
  nextInstanceId : Nat
deriving DecidableEq, Repr

/-- Modelled from the spec: `FlipSessionPool::Get` — reuse the live
session for the endpoint, else create, register and return a new one. -/
def poolGet (p : PoolState) (ep : Endpoint) : FlipSession × PoolState :=
  match p.sessions.find? (fun q => q.1 = ep) with
  | some q => (q.2, p)
  | none =>
    let s := newSession ep p.nextInstanceId
    (s, { sessions := (ep, s) :: p.sessions,
          nextInstanceId := p.nextInstanceId + 1 })

/-! ## Server push buffering -/

/-- A pushed stream the session holds until a request claims its URL. -/
structure PushedStream where
  sid : Nat
  url : List Nat
  buffer : List Nat
  complete : Bool
deriving DecidableEq, Repr

/-- Session-level events for the push paths. -/
inductive PushEvent
  | pushSyn (sid : Nat) (url : List Nat)
  | pushData (sid : Nat) (bytes : List Nat) (fin : Bool)
  | request (url : List Nat)
deriving DecidableEq, Repr

/-- The push-relevant session state: buffered pushed streams, requests
waiting for a push, and the bodies already delivered per URL. -/
structure PushSession where
  pushed : List PushedStream
  pendingRequests : List (List Nat)
  delivered : List (List Nat × List Nat)
deriving DecidableEq, Repr

/-- Modelled from the spec: the missing `FlipSession` push handling.  An
even-id SYN_STREAM opens a buffered pushed stream keyed by its URL; DATA
for it appends in arrival order; when the stream completes while a
matching request waits — or a request arrives for an already-complete
pushed stream — the whole buffered body is delivered once, and the
buffered stream is dropped. -/
def pushStep (s : PushSession) : PushEvent → PushSession
  | .pushSyn sid url =>
    if sid % 2 = 0 then
      { s with pushed := s.pushed ++ [⟨sid, url, [], false⟩] }
    else s
  | .pushData sid bytes fin =>
    match s.pushed.find? (fun e => e.sid == sid) with
    | none => s
    | some e =>
      let full := e.buffer ++ bytes
      if fin && s.pendingRequests.contains e.url then
        { pushed := s.pushed.filter (fun f => !(f.sid == sid)),
          pendingRequests := s.pendingRequests.filter (fun u => !(u == e.url)),
          delivered := s.delivered ++ [(e.url, full)] }
      else
        { s with pushed :=
            s.pushed.map (fun f => if f.sid == sid then ⟨sid, e.url, full, fin⟩ else f) }
  | .request url =>
    match s.pushed.find? (fun e => e.url == url && e.complete) with
    | some e =>
      { pushed := s.pushed.filter (fun f => !(f.sid == e.sid)),
        pendingRequests := s.pendingRequests,
        delivered := s.delivered ++ [(url, e.buffer)] }
    | none => { s with pendingRequests := s.pendingRequests ++ [url] }

/-- Run the push-relevant session from empty state. -/
def runPush (es : List PushEvent) : PushSession :=
  es.foldl pushStep ⟨[], [], []⟩

/-! ## Wire bytes from the unit tests

Byte-for-byte transcriptions of the frame constants in
`flip_network_transaction_unittest.cc`. -/

/-- SYN_STREAM the `Get` test expects to be written (FIN set, 3 pairs). -/
def getSyn : List Nat :=
  [0x80, 0x01, 0x00, 0x01,
   0x01, 0x00, 0x00, 0x45,
   0x00, 0x00, 0x00, 0x01,
   0xc0, 0x00, 0x00, 0x03] ++
  [0x00, 0x06] ++ str "method" ++ [0x00, 0x03] ++ str "GET" ++
  [0x00, 0x03] ++ str "url" ++
  [0x00, 0x16] ++ str "http://www.google.com/" ++
  [0x00, 0x07] ++ str "version" ++ [0x00, 0x08] ++ str "HTTP/1.1"

/-- SYN_REPLY fed to the `Get` test (4 pairs). -/
def getSynReply : List Nat :=
  [0x80, 0x01, 0x00, 0x02,
   0x00, 0x00, 0x00, 0x45,
   0x00, 0x00, 0x00, 0x01,
   0x00, 0x00, 0x00, 0x04] ++
  [0x00, 0x05] ++ str "hello" ++ [0x00, 0x03] ++ str "bye" ++
  [0x00, 0x06] ++ str "status" ++ [0x00, 0x03] ++ str "200" ++
  [0x00, 0x03] ++ str "url" ++ [0x00, 0x0a] ++ str "/index.php" ++
  [0x00, 0x07] ++ str "version" ++ [0x00, 0x08] ++ str "HTTP/1.1"

/-- The header block carried by `getSynReply`. -/
def getReplyHeaders : HeaderBlock :=
  [(str "hello", str "bye"), (str "status", str "200"),
   (str "url", str "/index.php"), (str "version", str "HTTP/1.1")]

/-- DATA frame `"hello!"` for stream 1 (no FIN). -/
def bodyFrame : List Nat :=
  [0x00, 0x00, 0x00, 0x01,
   0x00, 0x00, 0x00, 0x06] ++ str "hello!"

/-- RST_STREAM for stream 1 with status 0, the tests' fin signal. -/
def finFrame : List Nat :=
  [0x80, 0x01, 0x00, 0x03,
   0x00, 0x00, 0x00, 0x08,
   0x00, 0x00, 0x00, 0x01,
   0x00, 0x00, 0x00, 0x00]

/-- SYN_STREAM the `Post` test expects to be written (no FIN, 3 pairs). -/
def postSyn : List Nat :=
  [0x80, 0x01, 0x00, 0x01,
   0x00, 0x00, 0x00, 0x46,
   0x00, 0x00, 0x00, 0x01,
   0xc0, 0x00, 0x00, 0x03] ++
  [0x00, 0x06] ++ str "method" ++ [0x00, 0x04] ++ str "POST" ++
  [0x00, 0x03] ++ str "url" ++
  [0x00, 0x16] ++ str "http://www.google.com/" ++
  [0x00, 0x07] ++ str "version" ++ [0x00, 0x08] ++ str "HTTP/1.1"

/-- FIN-marked DATA frame carrying the `Post` test's upload
(`"hello world"` plus its terminating NUL, 12 bytes). -/
def postUploadFrame : List Nat :=
  [0x00, 0x00, 0x00, 0x01,
   0x01, 0x00, 0x00, 0x0c] ++ str "hello world" ++ [0x00]

/-- `SynReplyHeaders` reply 1: multi-valued cookie `val1\0val2`. -/
def synReply1 : List Nat :=
  [0x80, 0x01, 0x00, 0x02,
   0x00, 0x00, 0x00, 0x4c,
   0x00, 0x00, 0x00, 0x01,
   0x00, 0x00, 0x00, 0x04] ++
  [0x00, 0x06] ++ str "cookie" ++
  [0x00, 0x09] ++ str "val1" ++ [0x00] ++ str "val2" ++
  [0x00, 0x06] ++ str "status" ++ [0x00, 0x03] ++ str "200" ++
  [0x00, 0x03] ++ str "url" ++ [0x00, 0x0a] ++ str "/index.php" ++
  [0x00, 0x07] ++ str "version" ++ [0x00, 0x08] ++ str "HTTP/1.1"

/-- `SynReplyHeaders` reply 2: minimal header set (count byte says 4,
only 3 pairs present). -/
def synReply2 : List Nat :=
  [0x80, 0x01, 0x00, 0x02,
   0x00, 0x00, 0x00, 0x39,
   0x00, 0x00, 0x00, 0x01,
   0x00, 0x00, 0x00, 0x04] ++
  [0x00, 0x06] ++ str "status" ++ [0x00, 0x03] ++ str "200" ++
  [0x00, 0x03] ++ str "url" ++ [0x00, 0x0a] ++ str "/index.php" ++
  [0x00, 0x07] ++ str "version" ++ [0x00, 0x08] ++ str "HTTP/1.1"

/-- `SynReplyHeaders` reply 3: comma-separated cookie `val1,val2`. -/
def synReply3 : List Nat :=
  [0x80, 0x01, 0x00, 0x02,
   0x00, 0x00, 0x00, 0x4c,
   0x00, 0x00, 0x00, 0x01,
   0x00, 0x00, 0x00, 0x04] ++
  [0x00, 0x06] ++ str "cookie" ++
  [0x00, 0x09] ++ str "val1,val2" ++
  [0x00, 0x06] ++ str "status" ++ [0x00, 0x03] ++ str "200" ++
  [0x00, 0x03] ++ str "url" ++ [0x00, 0x0a] ++ str "/index.php" ++
  [0x00, 0x07] ++ str "version" ++ [0x00, 0x08] ++ str "HTTP/1.1"

/-! ## The claims -/

/-- C1: feeding the session the exact byte sequence for the SYN_REPLY with
`{status:200, url:/index.php, version:HTTP/1.1}` headers, then a DATA frame
`"hello!"`, then the FIN-signalling RST frame, completes the transaction
with result OK, status line `"HTTP/1.1 200 OK"` (reason phrase synthesized
from the bare `200`), and body exactly `"hello!"`. -/
theorem get_transaction_completes_ok :
    runTransaction (getSynReply ++ bodyFrame ++ finFrame) 1 =
      some { rv := .ok,
             status_line := str "HTTP/1.1 200 OK",
             header_lines := getReplyHeaders,
             response_data := str "hello!" } := by
  decide

/-- C2: in a decoded header block, a value with embedded NUL separators
unfolds into one header line per sub-value, same name, original order,
while a NUL-free value (a comma-separated list included) stays exactly one
line. -/
theorem multivalue_unfolds_nul_not_comma (n : List Nat)
    (parts : List (List Nat)) (pre post : HeaderBlock)
    (hne : parts ≠ []) (hnul : ∀ p ∈ parts, 0 ∉ p) :
    unfoldHeaders (pre ++ (n, nulJoin parts) :: post) =
      unfoldHeaders pre ++ parts.map (fun v => (n, v)) ++ unfoldHeaders post ∧
    (∀ v : List Nat, 0 ∉ v →
      unfoldHeaders (pre ++ (n, v) :: post) =
        unfoldHeaders pre ++ [(n, v)] ++ unfoldHeaders post) := by
  constructor
  · have : unfoldHeaders [(n, nulJoin parts)] = parts.map (fun v => (n, v)) := by
      simp [unfoldHeaders, splitOnNul_nulJoin hne hnul]
    calc unfoldHeaders (pre ++ (n, nulJoin parts) :: post)
        = unfoldHeaders pre ++ unfoldHeaders [(n, nulJoin parts)] ++
            unfoldHeaders post := by
          rw [← unfoldHeaders_append, ← unfoldHeaders_append]
          simp
      _ = _ := by rw [this]
  · intro v hv
    have : unfoldHeaders [(n, v)] = [(n, v)] := by
      simp [unfoldHeaders, splitOnNul_no_nul hv]
    calc unfoldHeaders (pre ++ (n, v) :: post)
        = unfoldHeaders pre ++ unfoldHeaders [(n, v)] ++ unfoldHeaders post := by
          rw [← unfoldHeaders_append, ← unfoldHeaders_append]
          simp
      _ = _ := by rw [this]

/-- Witness for C2 at the `SynReplyHeaders` test's cookie values:
`val1\0val2` unfolds into two `cookie` lines and `val1,val2` stays one. -/
theorem multivalue_unfolds_nul_not_comma_witness :
    unfoldHeaders [(str "cookie", nulJoin [str "val1", str "val2"])] =
      [(str "cookie", str "val1"), (str "cookie", str "val2")] ∧
    unfoldHeaders [(str "cookie", str "val1,val2")] =
      [(str "cookie", str "val1,val2")] := by
  have h := multivalue_unfolds_nul_not_comma (str "cookie")
    [str "val1", str "val2"] [] [] (by decide) (by decide)
  constructor
  · have h1 := h.1
    simpa [unfoldHeaders] using h1
  · have h2 := h.2 (str "val1,val2") (by decide)
    simpa [unfoldHeaders] using h2

/-- C3: decoding the encoding of any valid header block returns the
original block, order preserved, and therefore unfolds to the same header
lines on both sides. -/
theorem decode_encode_block_roundtrip (hs : HeaderBlock) (h : ValidBlock hs) :
    parseHeaderBlock (encodeHeaderBlock hs) = some hs ∧
    (parseHeaderBlock (encodeHeaderBlock hs)).map unfoldHeaders =
      some (unfoldHeaders hs) := by
  refine ⟨parseHeaderBlock_encodeHeaderBlock h, ?_⟩
  rw [parseHeaderBlock_encodeHeaderBlock h]
  rfl

/-- Witness for C3 at the `Get` test's reply block. -/
theorem decode_encode_block_roundtrip_witness :
    ValidBlock getReplyHeaders ∧
    parseHeaderBlock (encodeHeaderBlock getReplyHeaders) =
      some getReplyHeaders :=
  ⟨by decide, (decode_encode_block_roundtrip getReplyHeaders (by decide)).1⟩

/-- C4: DATA or RST arriving before any SYN_REPLY leaves the stream in the
`synReplyNotReceived` error state whatever comes later (so subsequent DATA
is discarded and the body stays empty), the transaction result is the
SynReplyNotReceived error, and frames of one stream produce no events for —
hence cannot affect — a transaction on a different stream id. -/
theorem data_or_rst_before_reply_fails (b : List Nat) (fin : Bool) (st : Nat)
    (es : List StreamEvent) :
    runStream (.dataBytes b fin :: es) =
      { responseHeaders := none, body := [], closed := false,
        error := some .synReplyNotReceived } ∧
    runStream (.rst st :: es) =
      { responseHeaders := none, body := [], closed := false,
        error := some .synReplyNotReceived } ∧
    streamResult (runStream (.dataBytes b fin :: es)) =
      .errSynReplyNotReceived ∧
    (∀ (f : Frame) (frames : List Frame) (sid : Nat),
      frameStreamId f ≠ some sid →
      framesToEvents (f :: frames) sid = framesToEvents frames sid) := by
  have hdata : runStream (.dataBytes b fin :: es) =
      { responseHeaders := none, body := [], closed := false,
        error := some .synReplyNotReceived } := by
    show List.foldl streamStep (streamStep {} (.dataBytes b fin)) es = _
    rw [show streamStep {} (.dataBytes b fin) =
        { responseHeaders := none, body := [], closed := false,
          error := some .synReplyNotReceived } from rfl]
    exact foldl_streamStep_frozen (by rfl) es
  refine ⟨hdata, ?_, ?_, ?_⟩
  · show List.foldl streamStep (streamStep {} (.rst st)) es = _
    rw [show streamStep {} (.rst st) =
        { responseHeaders := none, body := [], closed := false,
          error := some .synReplyNotReceived } from rfl]
    exact foldl_streamStep_frozen (by rfl) es
  · rw [hdata]
    rfl
  · intro f frames sid h
    exact framesToEvents_cons_other h frames

/-- Witness for C4: the `ResponseWithoutSynReply` test's event order (the
body DATA frame first), and the body DATA frame of stream 1 producing no
event for a transaction on stream 3. -/
theorem data_or_rst_before_reply_fails_witness :
    streamResult (runStream [.dataBytes (str "hello!") false, .rst 0]) =
      .errSynReplyNotReceived ∧
    framesToEvents [.data 1 0 (str "hello!")] 3 = framesToEvents [] 3 := by
  have h := data_or_rst_before_reply_fails (str "hello!") false 0 [.rst 0]
  exact ⟨h.2.2.1, h.2.2.2 (.data 1 0 (str "hello!")) [] 3 (by decide)⟩

/-- C5 counterexample: the `Get` test's SYN_REPLY payload is well-formed —
the decoder accepts it, at the offsets the tests pin — yet occupies 69
bytes, not the `4 + 4 + 4 + Σ pair sizes = 73` the claim's layout
requires. -/
theorem synReply_layout_counterexample :
    parseSynReplyPayload (getSynReply.drop 8) = some (1, getReplyHeaders) ∧
    (getSynReply.drop 8).length = 69 ∧
    4 + 4 + 4 + pairBytes getReplyHeaders = 73 := by
  decide

/-- C5 as amended: the SYN_REPLY payload is a 4-byte stream id, a 2-byte
reserved/unused field, then the header block led by a 2-byte pair count,
each pair a 2-byte length-prefixed name and 2-byte length-prefixed value;
a SYN_REPLY of N pairs occupies `4 + 2 + 2 + Σ pair sizes` payload bytes
and the decoder reads it at those offsets. -/
theorem synReply_layout (sid : Nat) (hs : HeaderBlock)
    (hsid : sid < 2147483648) (h : ValidBlock hs) :
    parseSynReplyPayload (be32 sid ++ be16 0 ++ encodeHeaderBlock hs) =
      some (sid, hs) ∧
    (be32 sid ++ be16 0 ++ encodeHeaderBlock hs).length =
      4 + 2 + 2 + pairBytes hs := by
  constructor
  · have h32 : sid < 4294967296 := by omega
    simp only [parseSynReplyPayload, List.append_assoc, Option.bind_eq_bind]
    rw [readU32_be32 h32]
    simp only [Option.some_bind]
    rw [readU16_be16 (by norm_num : (0 : Nat) < 65536)]
    simp only [Option.some_bind]
    rw [parseHeaderBlock_encodeHeaderBlock h]
    simp [Nat.mod_eq_of_lt hsid]
  · simp only [List.length_append, be32, be16, List.length_cons,
      List.length_nil, encodeHeaderBlock_length]
    omega

/-- Witness for C5's amended layout at the `Get` test's reply: stream id 1,
the test's four pairs, 69 payload bytes. -/
theorem synReply_layout_witness :
    1 < 2147483648 ∧ ValidBlock getReplyHeaders ∧
    parseSynReplyPayload (be32 1 ++ be16 0 ++
      encodeHeaderBlock getReplyHeaders) = some (1, getReplyHeaders) ∧
    (be32 1 ++ be16 0 ++ encodeHeaderBlock getReplyHeaders).length =
      4 + 2 + 2 + pairBytes getReplyHeaders :=
  ⟨by decide, by decide,
    (synReply_layout 1 getReplyHeaders (by decide) (by decide)).1,
    (synReply_layout 1 getReplyHeaders (by decide) (by decide)).2⟩

/-- C6: starting a request never returns the final result synchronously —
`SendRequest` reports pending I/O for every request; the SYN_STREAM it
emits carries FIN exactly when the request has no body; a body streams as
DATA frames with FIN on the last; and the emitted bytes for the `Get` and
`Post` tests' requests are exactly the writes those tests expect. -/
theorem sendRequest_pending_fin_flags (sid : Nat) (r : HttpRequestInfo)
    (c : List Nat) (cs : List (List Nat)) :
    (sendRequest sid r).1 = .ioPending ∧
    frameFlagsByte (synStreamFrameBytes sid r) =
      (if r.uploadChunks.isEmpty then FLAG_FIN else 0) ∧
    frameFlagsByte ((dataFramesBytes sid (c :: cs)).getLastD []) = FLAG_FIN ∧
    sendRequest 1
        ⟨str "GET", str "http://www.google.com/", str "HTTP/1.1", []⟩ =
      (.ioPending, [getSyn]) ∧
    sendRequest 1
        ⟨str "POST", str "http://www.google.com/", str "HTTP/1.1",
         [str "hello world" ++ [0x00]]⟩ =
      (.ioPending, [postSyn, postUploadFrame]) := by
  refine ⟨rfl, ?_, dataFramesBytes_last_fin sid c cs, by decide, by decide⟩
  simp [synStreamFrameBytes, controlFrameBytes, frameFlagsByte, be16, be24,
    SYN_STREAM]

/-- C7: a second `Get` for the same endpoint returns the identical live
session and leaves the pool unchanged, and client-initiated stream ids on
one session are odd and strictly increasing in allocation order. -/
theorem pool_reuse_and_odd_increasing_ids (p : PoolState) (ep : Endpoint)
    (inst k : Nat) :
    (poolGet (poolGet p ep).2 ep).1 = (poolGet p ep).1 ∧
    (poolGet (poolGet p ep).2 ep).2 = (poolGet p ep).2 ∧
    allocatedId ep inst k % 2 = 1 ∧
    allocatedId ep inst k < allocatedId ep inst (k + 1) := by
  have hid : ∀ j, allocatedId ep inst j = 1 + 2 * j := by
    intro j
    simp [allocatedId, createStreams_nextStreamId, newSession]
  have hpool : (poolGet (poolGet p ep).2 ep).1 = (poolGet p ep).1 ∧
      (poolGet (poolGet p ep).2 ep).2 = (poolGet p ep).2 := by
    cases hf : p.sessions.find? (fun q => q.1 = ep) with
    | some q =>
      constructor <;> simp [poolGet, hf]
    | none =>
      constructor <;> simp [poolGet, hf, List.find?_cons]
  refine ⟨hpool.1, hpool.2, ?_, ?_⟩
  · rw [hid k]
    omega
  · rw [hid k, hid (k + 1)]
    omega

/-- C8: a pushed stream (even-id SYN_STREAM then DATA frames) arriving
before the client requests its URL is buffered and delivered once, in
original frame order, with the same observable result as when the client's
request comes first. -/
theorem push_buffered_either_order (u b1 b2 : List Nat) :
    (runPush [.pushSyn 2 u, .pushData 2 b1 false, .pushData 2 b2 true,
              .request u]).delivered = [(u, b1 ++ b2)] ∧
    (runPush [.request u, .pushSyn 2 u, .pushData 2 b1 false,
              .pushData 2 b2 true]).delivered = [(u, b1 ++ b2)] := by
  constructor
  · simp [runPush, pushStep]
  · simp [runPush, pushStep]

/-- C9: after the SYN_REPLY and the whole body have arrived, an RST frame
with status 0 closes the stream cleanly: the transaction completes with
result OK and the full body rather than an error. -/
theorem rst_status_zero_after_body_ok (hs : HeaderBlock) (b : List Nat) :
    runStream [.synReply hs, .dataBytes b false, .rst 0] =
      { responseHeaders := some hs, body := b, closed := true,
        error := none } ∧
    streamResult (runStream [.synReply hs, .dataBytes b false, .rst 0]) =
      .ok := by
  have h : runStream [.synReply hs, .dataBytes b false, .rst 0] =
      { responseHeaders := some hs, body := b, closed := true,
        error := none } := by
    simp [runStream, streamStep]
  exact ⟨h, by rw [h]; rfl⟩

/-- C10: after a successful transaction the pseudo-headers stay in the
response's enumerated header lines, in block order, alongside the
reconstructed status line — pinned on the `SynReplyHeaders` test's
minimal reply, whose expected lines are exactly
`status`, `url`, `version`. -/
theorem pseudo_headers_enumerated :
    runTransaction (synReply2 ++ bodyFrame ++ finFrame) 1 =
      some { rv := .ok,
             status_line := str "HTTP/1.1 200 OK",
             header_lines := [(str "status", str "200"),
                              (str "url", str "/index.php"),
                              (str "version", str "HTTP/1.1")],
             response_data := str "hello!" } := by
  decide

end Flip
